import Mathlib

/-!
Verification of the AEB co-simulation bridge
(`src/Car_to_Bicyclist_Failed.py`).

Numeric values carried by the program (distances, velocities, control
magnitudes, simulated time) are modelled as rationals.  The byte-level
telemetry codec models an 8-byte double by its 64-bit pattern, since the
round-trip property at stake is bit-for-bit identity of the pattern; the
value read out of a received 8-byte chunk is an abstract interpretation
parameter `val`.  Python exceptions are modelled with `Except`: a source
function whose body catches every exception embeds as a total function.
-/

/-- CommandFrame: the dictionary produced by `receive_data` or synthesized
locally in `main` (keys `egoCarStop`, `FCW_Activate`, `Deceleration`,
`AEB_Status`, `Emergency_Brake`).  The field `AEB_Status` is the frame
member the design text calls `aebActive`, and `Emergency_Brake` the one it
calls `emergencyBrake`. -/
structure CommandFrame where
  egoCarStop : Bool
  FCW_Activate : Bool
  Deceleration : ℚ
  AEB_Status : Bool
  Emergency_Brake : Bool
deriving DecidableEq, Repr

/-- Default frame used by `receive_data` on timeout or error, and as the
starting point of the local fallback branch in `main` (lines 340-346). -/
def default_sim_data : CommandFrame :=
  { egoCarStop := false
    FCW_Activate := false
    Deceleration := 0
    AEB_Status := false
    Emergency_Brake := false }

/-- calculate_ttc (lines 17-21).  `none` stands for the Python value
`float(inf)` returned when the relative velocity is not positive. -/
def calculate_ttc (distance relative_velocity : ℚ) : Option ℚ :=
  if relative_velocity ≤ 0 then none
  else some (distance / relative_velocity)

/-- Actuator command, the fields of `carla.VehicleControl` that the code
sets (all constructor calls leave the remaining fields at their defaults). -/
structure VehicleControl where
  throttle : ℚ
  brake : ℚ
  steer : ℚ
deriving DecidableEq, Repr

/-- control_ego (lines 171-187): full brake on emergency-brake, stop request
or latched collision; full brake during the 2 s warm-up; otherwise throttle
and brake derived from the commanded deceleration, with
`base_throttle = 0.5` (line 174). -/
def control_ego (sim_time : ℚ) (sim_data : CommandFrame) (collision : Bool) :
    VehicleControl :=
  if sim_data.Emergency_Brake || sim_data.egoCarStop || collision then
    ⟨0, 1, 0⟩
  else if sim_time > 2 then
    let decel_factor := min (8/10) sim_data.Deceleration
    ⟨max (6/10) (1/2 - decel_factor), min (8/10) decel_factor, 0⟩
  else
    ⟨0, 1, 0⟩

/-- Local fallback decision synthesized in `main` when the TCP link is not
active (lines 381-389): start from the default frame; inside 15 m with
positive closing speed set `AEB_Status`; additionally inside 8 m set
`Emergency_Brake` and `Deceleration = min(0.8, 15.0/distance)`. -/
def local_aeb (distance relative_velocity : ℚ) : CommandFrame :=
  if distance < 15 ∧ 0 < relative_velocity then
    if distance < 8 then
      { default_sim_data with
          AEB_Status := true
          Emergency_Brake := true
          Deceleration := min (8/10) (15 / distance) }
    else
      { default_sim_data with AEB_Status := true }
  else
    default_sim_data

/-- C3: `calculate_ttc` returns the infinite marker exactly when the
relative velocity is not positive, and the exact quotient
`distance / relative_velocity` when it is positive. -/
theorem calculate_ttc_spec (d rv : ℚ) :
    (rv ≤ 0 → calculate_ttc d rv = none) ∧
    (0 < rv → calculate_ttc d rv = some (d / rv)) := by
  constructor
  · intro h
    simp [calculate_ttc, h]
  · intro h
    simp [calculate_ttc, not_le.mpr h]

/-- Witness for C3 at concrete inputs: closing speed `-1` gives infinity
independently of the distance, closing speed `2` at 9 m gives `4.5 s`. -/
theorem calculate_ttc_spec_witness :
    calculate_ttc 5 (-1) = none ∧ calculate_ttc 9 2 = some (9/2) :=
  ⟨(calculate_ttc_spec 5 (-1)).1 (by norm_num),
   (calculate_ttc_spec 9 2).2 (by norm_num)⟩

/-- C1: in the fallback branch (link not active), inside 15 m with positive
closing speed the synthesized frame has `AEB_Status` set, and additionally
inside 8 m it has `Emergency_Brake` set with deceleration
`min(0.8, 8/distance)`; on the whole domain `0 < distance < 8` this equals
the value `min(0.8, 15/distance)` the code computes, both saturating at 0.8. -/
theorem local_aeb_thresholds (d rv : ℚ) (hd : 0 < d) (h15 : d < 15)
    (hrv : 0 < rv) :
    (local_aeb d rv).AEB_Status = true ∧
    (d < 8 → (local_aeb d rv).Emergency_Brake = true ∧
      (local_aeb d rv).Deceleration = min (8/10) (8 / d)) := by
  have hcond : d < 15 ∧ 0 < rv := ⟨h15, hrv⟩
  constructor
  · by_cases h8 : d < 8 <;> simp [local_aeb, hcond, h8]
  · intro h8
    have h1 : (8:ℚ)/10 ≤ 15 / d := by
      rw [div_le_div_iff₀ (by norm_num) hd]
      nlinarith
    have h2 : (8:ℚ)/10 ≤ 8 / d := by
      rw [div_le_div_iff₀ (by norm_num) hd]
      nlinarith
    simp [local_aeb, hcond, h8, min_eq_left h1, min_eq_left h2]

/-- Witness for C1 at the scenario input `distance = 6`, `relativeVelocity = 2`:
AEB active, emergency brake set, and the deceleration evaluates to `0.8`. -/
theorem local_aeb_thresholds_witness :
    ((local_aeb 6 2).AEB_Status = true ∧
      ((6:ℚ) < 8 → (local_aeb 6 2).Emergency_Brake = true ∧
        (local_aeb 6 2).Deceleration = min (8/10) (8 / 6))) ∧
    (local_aeb 6 2).Deceleration = 8/10 := by
  refine ⟨local_aeb_thresholds 6 2 (by norm_num) (by norm_num) (by norm_num), ?_⟩
  norm_num [local_aeb, default_sim_data]

/-- C4: the ego command is full brake (`throttle = 0`, `brake = 1`) exactly
when the simulated time is still in the 2 s warm-up or one of
`Emergency_Brake`, `egoCarStop`, `collision` holds; in every other case the
throttle is strictly positive. -/
theorem control_ego_full_brake_iff (t : ℚ) (sd : CommandFrame) (coll : Bool) :
    (((control_ego t sd coll).throttle = 0 ∧ (control_ego t sd coll).brake = 1)
      ↔ (t ≤ 2 ∨ sd.Emergency_Brake = true ∨ sd.egoCarStop = true ∨
          coll = true)) ∧
    (¬ (t ≤ 2 ∨ sd.Emergency_Brake = true ∨ sd.egoCarStop = true ∨
          coll = true) →
      0 < (control_ego t sd coll).throttle) := by
  by_cases hflag : sd.Emergency_Brake = true ∨ sd.egoCarStop = true ∨
      coll = true
  · have hb : (sd.Emergency_Brake || sd.egoCarStop || coll) = true := by
      rcases hflag with h | h | h <;> simp [h]
    constructor
    · simp [control_ego, hb]
      tauto
    · intro hn
      exact absurd (by tauto) hn
  · have hb : (sd.Emergency_Brake || sd.egoCarStop || coll) = false := by
      simp only [Bool.or_eq_false_iff]
      refine ⟨⟨?_, ?_⟩, ?_⟩ <;> simp_all [Bool.not_eq_true]
    by_cases ht : t > 2
    · have hth : (control_ego t sd coll).throttle =
          max (6/10) (1/2 - min (8/10) sd.Deceleration) := by
        simp [control_ego, hb, ht]
      have hpos : (0:ℚ) < (control_ego t sd coll).throttle := by
        rw [hth]
        have : (6:ℚ)/10 ≤ max (6/10) (1/2 - min (8/10) sd.Deceleration) :=
          le_max_left _ _
        linarith
      constructor
      · constructor
        · intro h
          exact absurd h.1 (ne_of_gt hpos)
        · intro h
          rcases h with h | h
          · linarith
          · exact absurd h hflag
      · intro _
        exact hpos
    · have ht2 : t ≤ 2 := by linarith
      constructor
      · simp [control_ego, hb, not_lt.mpr ht2]
        exact Or.inl ht2
      · intro hn
        exact absurd (Or.inl ht2) hn

/-- Witness for C4 at `t = 3`, default frame, no collision: the inner
hypothesis (no full-brake condition) is discharged and the throttle is
strictly positive. -/
theorem control_ego_full_brake_iff_witness :
    0 < (control_ego 3 default_sim_data false).throttle :=
  (control_ego_full_brake_iff 3 default_sim_data false).2
    (by norm_num [default_sim_data])

/-- Counterexample for C7 as stated: after warm-up with no full-brake
condition and a received deceleration of `-1`, the brake command is `-1`,
outside `[0,1]` (the code applies no clamping). -/
theorem control_ego_negative_brake :
    (control_ego 3 ⟨false, false, -1, false, false⟩ false).brake = -1 ∧
    ¬ (0 ≤ (control_ego 3 ⟨false, false, -1, false, false⟩ false).brake) := by
  norm_num [control_ego]

/-- C7 amended: after warm-up with no full-brake condition, the command is
`throttle = max(0.6, 0.5 - d)` and `brake = min(0.8, d)` with
`d = min(0.8, Deceleration)`; both outputs lie in `[0,1]` whenever the
received deceleration is nonnegative (negative receptions escape the range,
see the counterexample). -/
theorem control_ego_formula_bounds (t : ℚ) (sd : CommandFrame) (coll : Bool)
    (ht : 2 < t) (hEB : sd.Emergency_Brake = false)
    (hstop : sd.egoCarStop = false) (hcoll : coll = false) :
    (control_ego t sd coll).throttle =
      max (6/10) (1/2 - min (8/10) sd.Deceleration) ∧
    (control_ego t sd coll).brake = min (8/10) (min (8/10) sd.Deceleration) ∧
    (0 ≤ sd.Deceleration →
      0 ≤ (control_ego t sd coll).throttle ∧
      (control_ego t sd coll).throttle ≤ 1 ∧
      0 ≤ (control_ego t sd coll).brake ∧
      (control_ego t sd coll).brake ≤ 1) := by
  have hb : (sd.Emergency_Brake || sd.egoCarStop || coll) = false := by
    simp [hEB, hstop, hcoll]
  have hc : control_ego t sd coll =
      ⟨max (6/10) (1/2 - min (8/10) sd.Deceleration),
        min (8/10) (min (8/10) sd.Deceleration), 0⟩ := by
    simp [control_ego, hb, ht]
  refine ⟨by rw [hc], by rw [hc], ?_⟩
  intro hD
  rw [hc]
  have hmin : (0:ℚ) ≤ min (8/10) sd.Deceleration := le_min (by norm_num) hD
  have hmin8 : min ((8:ℚ)/10) sd.Deceleration ≤ 8/10 := min_le_left _ _
  refine ⟨?_, ?_, ?_, ?_⟩
  · have := le_max_left ((6:ℚ)/10) (1/2 - min (8/10) sd.Deceleration)
    dsimp only
    linarith
  · dsimp only
    rw [max_le_iff]
    constructor
    · norm_num
    · linarith
  · dsimp only
    exact le_min (by norm_num) hmin
  · dsimp only
    have := min_le_left ((8:ℚ)/10) (min (8/10) sd.Deceleration)
    linarith

/-- Witness for C7 (amended) at `t = 3`, received deceleration `1/2`: the
formulas hold and both outputs are in range. -/
theorem control_ego_formula_bounds_witness :
    (control_ego 3 ⟨false, false, 1/2, false, false⟩ false).throttle =
      max (6/10) (1/2 - min (8/10) (1/2)) ∧
    (control_ego 3 ⟨false, false, 1/2, false, false⟩ false).brake =
      min (8/10) (min (8/10) (1/2)) ∧
    ((0:ℚ) ≤ 1/2 →
      0 ≤ (control_ego 3 ⟨false, false, 1/2, false, false⟩ false).throttle ∧
      (control_ego 3 ⟨false, false, 1/2, false, false⟩ false).throttle ≤ 1 ∧
      0 ≤ (control_ego 3 ⟨false, false, 1/2, false, false⟩ false).brake ∧
      (control_ego 3 ⟨false, false, 1/2, false, false⟩ false).brake ≤ 1) :=
  control_ego_formula_bounds 3 ⟨false, false, 1/2, false, false⟩ false
    (by norm_num) rfl rfl rfl

/-- C10: after warm-up with no full-brake condition, whenever the received
deceleration is at least `-0.1` the throttle command is the constant `0.6`
(so a larger commanded deceleration never reduces propulsion; only the
brake output varies with it). -/
theorem control_ego_throttle_constant (t : ℚ) (sd : CommandFrame)
    (coll : Bool) (ht : 2 < t) (hEB : sd.Emergency_Brake = false)
    (hstop : sd.egoCarStop = false) (hcoll : coll = false)
    (hD : -1/10 ≤ sd.Deceleration) :
    (control_ego t sd coll).throttle = 3/5 ∧
    (control_ego t sd coll).brake = min (8/10) (min (8/10) sd.Deceleration) := by
  have hb : (sd.Emergency_Brake || sd.egoCarStop || coll) = false := by
    simp [hEB, hstop, hcoll]
  have hc : control_ego t sd coll =
      ⟨max (6/10) (1/2 - min (8/10) sd.Deceleration),
        min (8/10) (min (8/10) sd.Deceleration), 0⟩ := by
    simp [control_ego, hb, ht]
  rw [hc]
  refine ⟨?_, rfl⟩
  dsimp only
  have hge : -1/10 ≤ min ((8:ℚ)/10) sd.Deceleration := le_min (by norm_num) hD
  rw [max_eq_left (by linarith)]
  norm_num

/-- Witness for C10 at `t = 3`, received deceleration `0`: throttle is `0.6`. -/
theorem control_ego_throttle_constant_witness :
    (control_ego 3 ⟨false, false, 0, false, false⟩ false).throttle = 3/5 ∧
    (control_ego 3 ⟨false, false, 0, false, false⟩ false).brake =
      min (8/10) (min (8/10) 0) :=
  control_ego_throttle_constant 3 ⟨false, false, 0, false, false⟩ false
    (by norm_num) rfl rfl rfl (by norm_num)

/-- Result of one `conn.recv(8)` call: a chunk of bytes (possibly fewer than
8 — a short read; an empty chunk models a closed peer), a raised
`socket.timeout`, or any other raised exception. -/
inductive Recv1 where
  | bytes (b : List ℕ)
  | timedOut
  | failed
deriving DecidableEq, Repr

/-- Errors the receive loop of `receive_data` can raise internally:
the `ValueError("Packet incomplet")` of line 53, a `socket.timeout`, or
any other exception. -/
inductive RecvErr where
  | valueError
  | timeout
  | ioError
deriving DecidableEq, Repr

/-- Receive loop of `receive_data` (lines 49-54): `n` successive
`conn.recv(8)` calls, failing with `ValueError` as soon as a chunk is
shorter than 8 bytes, and propagating a timeout or other exception of the
call itself.  `conn k` is what the `k`-th recv call does. -/
def recv_upto (conn : ℕ → Recv1) : ℕ → Except RecvErr (List (List ℕ))
  | 0 => Except.ok []
  | n + 1 =>
    match recv_upto conn n with
    | Except.error e => Except.error e
    | Except.ok ps =>
      match conn n with
      | Recv1.bytes b =>
          if b.length < 8 then Except.error RecvErr.valueError
          else Except.ok (ps ++ [b])
      | Recv1.timedOut => Except.error RecvErr.timeout
      | Recv1.failed => Except.error RecvErr.ioError

/-- Python 3 `round` on a rational: round half to even. -/
def pyRound (x : ℚ) : ℤ :=
  let f := ⌊x⌋
  if x - f < 1/2 then f
  else if 1/2 < x - f then f + 1
  else if f % 2 = 0 then f else f + 1

/-- Python `bool` applied to an integer: true exactly on nonzero. -/
def pyBool (z : ℤ) : Bool := z ≠ 0

/-- receive_data (lines 47-81): five 8-byte chunks are read and unpacked;
on success the frame is built positionally with the booleans recovered by
`bool(round(.))`; a timeout or any other exception (including the internal
short-read `ValueError`) is caught and the default frame is returned.
`val` is the IEEE-754 reading of an 8-byte chunk, kept abstract. -/
def receive_data (val : List ℕ → ℚ) (conn : ℕ → Recv1) : CommandFrame :=
  match recv_upto conn 5 with
  | Except.ok ps =>
    match ps.map val with
    | [d0, d1, d2, d3, d4] =>
      { egoCarStop := pyBool (pyRound d0)
        FCW_Activate := pyBool (pyRound d1)
        Deceleration := d2
        AEB_Status := pyBool (pyRound d3)
        Emergency_Brake := pyBool (pyRound d4) }
    | _ => default_sim_data
  | Except.error _ => default_sim_data

/-- Outcome of the socket writes of one `send_data` call. -/
inductive Send1 where
  | delivered
  | ioError
deriving DecidableEq, Repr

/-- The `sendall` loop of `send_data` before exception handling: an I/O
error (broken pipe, partial write) raises. -/
def send_attempt (o : Send1) : Except Unit Unit :=
  match o with
  | Send1.delivered => Except.ok ()
  | Send1.ioError => Except.error ()

/-- send_data (lines 39-45): the whole body is wrapped in try/except, every
exception is caught and logged, so the function returns normally on both
outcomes. -/
def send_data (o : Send1) : Unit :=
  match send_attempt o with
  | Except.ok _ => ()
  | Except.error _ => ()

/-- Body of the try-block of `main` at lines 370-376: call `send_data`,
then bind `sim_data` to the result of `receive_data`.  Both callees embed
as total functions (each catches every exception in its own body), so this
composition never produces an error. -/
def main_tcp_try (val : List ℕ → ℚ) (o : Send1) (conn : ℕ → Recv1) :
    Except Unit CommandFrame :=
  match (Except.ok (send_data o) : Except Unit Unit) with
  | Except.error e => Except.error e
  | Except.ok _ => Except.ok (receive_data val conn)

/-- Link handling of one tick of `main` (lines 369-389): with the link
active, run the try-block; its except-branch (lines 377-380) would set
`tcp_active` to false and fall back to the default frame.  With the link
inactive, synthesize the fallback decision locally. -/
def link_phase (val : List ℕ → ℚ) (tcp_active : Bool) (o : Send1)
    (conn : ℕ → Recv1) (distance relative_velocity : ℚ) :
    CommandFrame × Bool :=
  if tcp_active then
    match main_tcp_try val o conn with
    | Except.ok sd => (sd, true)
    | Except.error _ => (default_sim_data, false)
  else
    (local_aeb distance relative_velocity, false)

/-- Per-tick environment input: what the world and the socket do on this
iteration of the loop. -/
structure TickInput where
  distance : ℚ
  relative_velocity : ℚ
  send : Send1
  conn : ℕ → Recv1

/-- State of `main` that survives from one loop iteration to the next. -/
structure LoopState where
  sim_time : ℚ
  tcp_active : Bool
  collision : Bool

/-- One iteration of the while-loop of `main` (lines 350-396), restricted
to the state it mutates and the ego command it applies: advance the clock
by 0.05 s, run the link phase, compute the ego control from the frame and
the current collision flag, then latch the collision flag if the distance
is below 2.5 m (lines 394-396). -/
def step (val : List ℕ → ℚ) (s : LoopState) (i : TickInput) :
    LoopState × VehicleControl :=
  let t := s.sim_time + 1/20
  let lr := link_phase val s.tcp_active i.send i.conn i.distance
    i.relative_velocity
  let ctrl := control_ego t lr.1 s.collision
  let coll :=
    if i.distance < 5/2 ∧ s.collision = false then true else s.collision
  (⟨t, lr.2, coll⟩, ctrl)

/-- Iterated loop: run `step` over a list of tick inputs. -/
def run (val : List ℕ → ℚ) (s : LoopState) (l : List TickInput) : LoopState :=
  l.foldl (fun st i => (step val st i).1) s

/-- A recv call that returned a complete 8-byte chunk. -/
def chunk_complete (r : Recv1) : Prop :=
  ∃ b, r = Recv1.bytes b ∧ 8 ≤ b.length

/-- Once the receive loop has failed, running it further leaves the same
error (the loop aborts at the first failing call). -/
theorem recv_upto_error_mono (conn : ℕ → Recv1) (e : RecvErr) {n m : ℕ}
    (hnm : n ≤ m) (h : recv_upto conn n = Except.error e) :
    recv_upto conn m = Except.error e := by
  induction m with
  | zero =>
    have : n = 0 := Nat.le_zero.mp hnm
    subst this
    simp [recv_upto] at h
  | succ m ih =>
    by_cases hn : n ≤ m
    · have hm := ih hn
      simp [recv_upto, hm]
    · have : n = m + 1 := Nat.le_antisymm hnm (Nat.not_le.mp hn)
      subst this
      exact h

/-- If the first `n` recv calls all return complete chunks, the receive
loop over them succeeds. -/
theorem recv_upto_ok (conn : ℕ → Recv1) (n : ℕ)
    (h : ∀ j, j < n → chunk_complete (conn j)) :
    ∃ ps, recv_upto conn n = Except.ok ps := by
  induction n with
  | zero => exact ⟨[], rfl⟩
  | succ n ih =>
    obtain ⟨ps, hps⟩ := ih fun j hj => h j (Nat.lt_succ_of_lt hj)
    obtain ⟨b, hb, hlen⟩ := h n (Nat.lt_succ_self n)
    refine ⟨ps ++ [b], ?_⟩
    simp [recv_upto, hps, hb, Nat.not_lt.mpr hlen]

/-- C8 amended: if one of the five recv calls returns a chunk shorter than
8 bytes (after complete chunks), the inner loop fails with the
`ValueError` of line 53, but the surrounding except-handler catches it and
`receive_data` returns the default CommandFrame, exactly as on a timeout. -/
theorem short_read_default (val : List ℕ → ℚ) (conn : ℕ → Recv1) (k : ℕ)
    (b : List ℕ) (hk : k < 5)
    (hpre : ∀ j, j < k → chunk_complete (conn j))
    (hb : conn k = Recv1.bytes b) (hshort : b.length < 8) :
    recv_upto conn 5 = Except.error RecvErr.valueError ∧
    receive_data val conn = default_sim_data := by
  obtain ⟨ps, hps⟩ := recv_upto_ok conn k hpre
  have hk1 : recv_upto conn (k + 1) = Except.error RecvErr.valueError := by
    simp [recv_upto, hps, hb, hshort]
  have h5 : recv_upto conn 5 = Except.error RecvErr.valueError :=
    recv_upto_error_mono conn _ hk hk1
  exact ⟨h5, by simp [receive_data, h5]⟩

/-- Witness for C8 (amended): a first chunk of 3 bytes makes the loop fail
with `ValueError` and `receive_data` return the default frame. -/
theorem short_read_default_witness :
    recv_upto (fun _ => Recv1.bytes [1, 2, 3]) 5 =
      Except.error RecvErr.valueError ∧
    receive_data (fun _ => 0) (fun _ => Recv1.bytes [1, 2, 3]) =
      default_sim_data :=
  short_read_default (fun _ => 0) (fun _ => Recv1.bytes [1, 2, 3]) 0 [1, 2, 3]
    (by norm_num) (fun j hj => absurd hj (Nat.not_lt_zero j)) rfl
    (by norm_num)

/-- Counterexample for C8 as stated: on a short read `receive_data` does
yield a CommandFrame — the default one — indistinguishable from the result
of a plain timeout, so the failure is not reported distinctly to the
caller. -/
theorem short_read_not_distinct :
    receive_data (fun _ => 0)
        (fun n => if n = 0 then Recv1.bytes [7]
          else Recv1.bytes [0, 0, 0, 0, 0, 0, 0, 0]) =
      receive_data (fun _ => 0) (fun _ => Recv1.timedOut) ∧
    receive_data (fun _ => 0) (fun _ => Recv1.timedOut) =
      default_sim_data := by
  exact ⟨rfl, rfl⟩

/-- C2: with the link active and the socket raising a non-timeout I/O error
on both the send and the receive of a tick, `tcp_active` stays true and the
tick uses the all-false default frame: `send_data` and `receive_data` catch
every exception in their own bodies, so the handler at lines 377-379 that
would mark the link degraded never runs.  At distance 6 m and closing speed
2 m/s the local fallback would command an emergency brake, but the default
frame carries none. -/
theorem io_error_keeps_link_active :
    link_phase (fun _ => 0) true Send1.ioError (fun _ => Recv1.failed) 6 2 =
      (default_sim_data, true) ∧
    (local_aeb 6 2).Emergency_Brake = true ∧
    default_sim_data.Emergency_Brake = false := by
  refine ⟨rfl, ?_, rfl⟩
  norm_num [local_aeb, default_sim_data]

/-- A set collision flag survives one loop iteration. -/
theorem step_collision_mono (val : List ℕ → ℚ) (s : LoopState)
    (i : TickInput) (h : s.collision = true) :
    ((step val s i).1).collision = true := by
  simp [step, h]

/-- A set collision flag survives any number of loop iterations. -/
theorem run_collision_mono (val : List ℕ → ℚ) (l : List TickInput) :
    ∀ s : LoopState, s.collision = true → (run val s l).collision = true := by
  induction l with
  | nil => intro s h; exact h
  | cons i l ih =>
    intro s h
    exact ih _ (step_collision_mono val s i h)

/-- C5: the collision flag is a sticky latch: a tick observing a distance
below 2.5 m sets it, and it stays set over every later tick, whatever the
later distances, link states and frames are. -/
theorem collision_latch (val : List ℕ → ℚ) (s : LoopState) (i : TickInput)
    (l : List TickInput) (h : i.distance < 5/2) :
    ((step val s i).1).collision = true ∧
    (run val (step val s i).1 l).collision = true := by
  have h1 : ((step val s i).1).collision = true := by
    by_cases hc : s.collision = true
    · exact step_collision_mono val s i hc
    · have hc' : s.collision = false := by
        simpa using hc
      simp [step, h, hc']
  exact ⟨h1, run_collision_mono val l _ h1⟩

/-- Witness for C5: a tick at 2 m latches the flag and it is still set
after a later tick at 100 m. -/
theorem collision_latch_witness :
    ((step (fun _ => 0) ⟨0, true, false⟩
        ⟨2, 0, Send1.delivered, fun _ => Recv1.timedOut⟩).1).collision =
      true ∧
    (run (fun _ => 0)
        (step (fun _ => 0) ⟨0, true, false⟩
          ⟨2, 0, Send1.delivered, fun _ => Recv1.timedOut⟩).1
        [⟨100, 0, Send1.delivered, fun _ => Recv1.timedOut⟩]).collision =
      true :=
  collision_latch (fun _ => 0) ⟨0, true, false⟩
    ⟨2, 0, Send1.delivered, fun _ => Recv1.timedOut⟩
    [⟨100, 0, Send1.delivered, fun _ => Recv1.timedOut⟩] (by norm_num)

/-- C6: when the first recv call of a tick times out with no data,
`receive_data` returns the default frame with every boolean false and zero
deceleration, the tick completes with the control computed from that frame,
and the link stays active for the following ticks. -/
theorem timeout_uses_default (val : List ℕ → ℚ) (s : LoopState)
    (i : TickInput) (ha : s.tcp_active = true)
    (ht : i.conn 0 = Recv1.timedOut) :
    receive_data val i.conn =
      { egoCarStop := false
        FCW_Activate := false
        Deceleration := 0
        AEB_Status := false
        Emergency_Brake := false } ∧
    (step val s i).2 =
      control_ego (s.sim_time + 1/20) default_sim_data s.collision ∧
    ((step val s i).1).tcp_active = true := by
  have h1 : recv_upto i.conn 1 = Except.error RecvErr.timeout := by
    simp [recv_upto, ht]
  have h5 : recv_upto i.conn 5 = Except.error RecvErr.timeout :=
    recv_upto_error_mono _ _ (by norm_num) h1
  have hr : receive_data val i.conn = default_sim_data := by
    simp [receive_data, h5]
  refine ⟨hr, ?_, ?_⟩
  · simp [step, link_phase, ha, main_tcp_try, hr]
  · simp [step, link_phase, ha, main_tcp_try]

/-- Witness for C6 on a concrete tick whose recv times out. -/
theorem timeout_uses_default_witness :
    receive_data (fun _ => 0) (fun _ => Recv1.timedOut) =
      { egoCarStop := false
        FCW_Activate := false
        Deceleration := 0
        AEB_Status := false
        Emergency_Brake := false } ∧
    (step (fun _ => 0) ⟨1, true, false⟩
        ⟨20, 1, Send1.delivered, fun _ => Recv1.timedOut⟩).2 =
      control_ego (1 + 1/20) default_sim_data false ∧
    ((step (fun _ => 0) ⟨1, true, false⟩
        ⟨20, 1, Send1.delivered, fun _ => Recv1.timedOut⟩).1).tcp_active =
      true :=
  timeout_uses_default (fun _ => 0) ⟨1, true, false⟩
    ⟨20, 1, Send1.delivered, fun _ => Recv1.timedOut⟩ rfl rfl

/-- Little-endian byte split of the low `k` bytes of a 64-bit pattern, the
layout `struct.pack` uses for one double on the native (little-endian)
byte order of both ends. -/
def packDAux : ℕ → ℕ → List ℕ
  | _, 0 => []
  | w, k + 1 => w % 256 :: packDAux (w / 256) k

/-- Encoding of one 8-byte double, identified with its 64-bit pattern. -/
def packD (w : ℕ) : List ℕ := packDAux w 8

/-- Little-endian recombination of a byte list, the `struct.unpack` reading
of one double from a chunk. -/
def unpackD : List ℕ → ℕ
  | [] => 0
  | b :: bs => b + 256 * unpackD bs

/-- Payload of `send_data` (lines 41-42): the three doubles of the
telemetry, in the field order distance, lead velocity, ego velocity. -/
def encode_telemetry (dist vel ego : ℕ) : List ℕ :=
  packD dist ++ packD vel ++ packD ego

/-- Positional inbound rule of the counterpart, the same 8-bytes-per-value
reading `receive_data` uses (lines 50-54): consecutive 8-byte chunks, each
unpacked as one double. -/
def decode3 (bs : List ℕ) : ℕ × ℕ × ℕ :=
  (unpackD (bs.take 8), unpackD ((bs.drop 8).take 8),
    unpackD ((bs.drop 16).take 8))

theorem packDAux_length (k : ℕ) : ∀ w, (packDAux w k).length = k := by
  induction k with
  | zero => intro w; rfl
  | succ k ih => intro w; simp [packDAux, ih]

theorem unpackD_packDAux (k : ℕ) :
    ∀ w, unpackD (packDAux w k) = w % 256 ^ k := by
  induction k with
  | zero => intro w; simp [packDAux, unpackD, Nat.mod_one]
  | succ k ih =>
    intro w
    have hdiv : w % 256 ^ (k + 1) / 256 = w / 256 % 256 ^ k := by
      rw [pow_succ']
      exact Nat.mod_mul_right_div_self w 256 (256 ^ k)
    have hmod : w % 256 ^ (k + 1) % 256 = w % 256 := by
      refine Nat.mod_mod_of_dvd w ?_
      rw [pow_succ']
      exact dvd_mul_right 256 (256 ^ k)
    have hsplit := Nat.div_add_mod (w % 256 ^ (k + 1)) 256
    simp only [packDAux, unpackD, ih (w / 256)]
    omega

theorem unpackD_packD (w : ℕ) (h : w < 2 ^ 64) : unpackD (packD w) = w := by
  have : unpackD (packD w) = w % 256 ^ 8 := unpackD_packDAux 8 w
  rw [this, Nat.mod_eq_of_lt]
  calc w < 2 ^ 64 := h
    _ = 256 ^ 8 := by norm_num

/-- C9: round-trip of the telemetry codec: packing the three fields as
consecutive 8-byte values in the order distance, lead velocity, ego
velocity and reading the same bytes back with the positional 8-byte rule
recovers the three 64-bit patterns bit for bit. -/
theorem telemetry_round_trip (dist vel ego : ℕ) (h1 : dist < 2 ^ 64)
    (h2 : vel < 2 ^ 64) (h3 : ego < 2 ^ 64) :
    decode3 (encode_telemetry dist vel ego) = (dist, vel, ego) := by
  have la : (packD dist).length = 8 := packDAux_length 8 dist
  have lb : (packD vel).length = 8 := packDAux_length 8 vel
  have lc : (packD ego).length = 8 := packDAux_length 8 ego
  have hbs : encode_telemetry dist vel ego =
      packD dist ++ (packD vel ++ packD ego) := by
    simp [encode_telemetry]
  have htake : (encode_telemetry dist vel ego).take 8 = packD dist := by
    rw [hbs, ← la]
    exact List.take_left _ _
  have hdrop : (encode_telemetry dist vel ego).drop 8 =
      packD vel ++ packD ego := by
    rw [hbs, ← la]
    exact List.drop_left _ _
  have htake2 : ((encode_telemetry dist vel ego).drop 8).take 8 =
      packD vel := by
    rw [hdrop, ← lb]
    exact List.take_left _ _
  have hdrop16 : (encode_telemetry dist vel ego).drop 16 = packD ego := by
    have : (encode_telemetry dist vel ego).drop 16 =
        ((encode_telemetry dist vel ego).drop 8).drop 8 := by
      rw [List.drop_drop]
    rw [this, hdrop, ← lb]
    exact List.drop_left _ _
  have htake3 : ((encode_telemetry dist vel ego).drop 16).take 8 =
      packD ego := by
    rw [hdrop16, ← lc]
    exact List.take_length _
  simp only [decode3, htake, htake2, htake3, unpackD_packD dist h1,
    unpackD_packD vel h2, unpackD_packD ego h3]

/-- Witness for C9 at three concrete 64-bit patterns. -/
theorem telemetry_round_trip_witness :
    decode3 (encode_telemetry 1000 0 123456789) = (1000, 0, 123456789) :=
  telemetry_round_trip 1000 0 123456789 (by norm_num) (by norm_num)
    (by norm_num)
